import Mathlib

/-
Shallow embedding of the `paw1a/eschool-repository` postgres persistence
adapter: the `PostgresUserRepo`, `PostgresSchoolRepo`, `PostgresReviewRepo`
and `PostgresCertificateRepo` CRUD methods, their literal SQL statement
constants, and the error-classification discipline they implement.

The storage driver (`sqlx`/`pgconn`) is external: each repository method is
parameterized over an optional injected driver fault per statement, standing
for the driver failing that call (connection error, constraint violation
reported by the server, context cancellation, ...).  When no fault is
injected, the statement executes against an explicit relational state `DB`
with list-of-rows semantics.
-/

set_option autoImplicit false

/-- A failure returned by the storage driver for a single statement:
`noRows` is `sql.ErrNoRows`, `pg code` is a `*pgconn.PgError` carrying a
five-character SQLSTATE code, `ctxCanceled` / `ctxDeadline` are the context
cancellation errors, `other` is any other driver-level failure. -/
inductive DriverError where
  | noRows
  | pg (code : String)
  | ctxCanceled
  | ctxDeadline
  | other
deriving DecidableEq, Repr

/-- Modelled from the spec: `PgUniqueViolationCode` is declared in a file of
this repository that is not under `src/` (the repository methods reference it
when classifying `pgconn` errors).  Its value is the SQLSTATE code for a
uniqueness-constraint violation; only its identity as a fixed code distinct
from `PgEnumValueError` matters below. -/
def PgUniqueViolationCode : String := "23505"

/-- Modelled from the spec: `PgEnumValueError` is declared in a file of this
repository that is not under `src/` (referenced by
`PostgresCertificateRepo.Create`).  Its value is the SQLSTATE code for an
enumerated-value constraint violation, a fixed code distinct from
`PgUniqueViolationCode`. -/
def PgEnumValueError : String := "22P02"

/-- The closed set of domain error sentinels of `eschool-core/errs` that the
repository layer wraps failures into. -/
inductive ErrKind where
  | errNotExist
  | errDuplicate
  | errEnumValueError
  | errUpdateFailed
  | errDeleteFailed
  | errPersistenceFailed
deriving DecidableEq, Repr

/-- An error value as returned by a repository method to its caller:
`classified kind cause` is `errors.Wrap(errs.<kind>, cause.Error())` — the
domain sentinel with the original driver failure retained as context —
while `raw cause` is the untouched driver error returned without wrapping. -/
inductive RepoErr where
  | classified (kind : ErrKind) (cause : DriverError)
  | raw (cause : DriverError)
deriving DecidableEq, Repr

/-- Outcome of one driver statement execution. -/
inductive ExecResult (α : Type) where
  | ok (a : α)
  | fail (e : DriverError)
deriving DecidableEq, Repr

/-- Outcome of one repository method as seen by the caller: the Go
`(T, error)` pair with `error == nil` on `ok`. -/
inductive RepoResult (α : Type) where
  | ok (a : α)
  | err (e : RepoErr)
deriving DecidableEq, Repr

/-- A repository method's returned error is classified (wrapped into the
domain taxonomy), never the raw driver error. -/
def Classified {α : Type} (r : RepoResult α) : Prop :=
  ∀ e : DriverError, r ≠ .err (.raw e)

/-- An injected driver fault overrides the state-level outcome of a
statement: the driver reports `e` and no state change takes place. -/
def withFault {α : Type} (fault : Option DriverError) (r : ExecResult α) :
    ExecResult α :=
  match fault with
  | some e => .fail e
  | none => r

/-- A storage row: the primary-key `id` column plus the remaining columns,
kept opaque (`payload`) since no repository method inspects them. -/
structure Row where
  id : String
  payload : String
deriving DecidableEq, Repr

/-- A domain entity (User / School / Review / Certificate): the opaque
string `ID` plus the business fields, kept opaque. -/
structure Entity where
  id : String
  payload : String
deriving DecidableEq, Repr

/-- Modelled from the spec: the row constructors `entity.NewPgUser`,
`entity.NewPgSchool`, `entity.NewPgReview`, `entity.NewPgCertificate` live in
the `postgres/entity` package, absent from `src/`.  Per the spec each builds
a Row from the entity, "assigning an ID if unset"; the freshly generated ID
is passed in as `freshID` since its generation is external randomness. -/
def NewPgRow (freshID : String) (e : Entity) : Row :=
  if e.id = "" then { id := freshID, payload := e.payload }
  else { id := e.id, payload := e.payload }

/-- Modelled from the spec: the `ToDomain` conversion of the `entity`
package (absent from `src/`), the inverse direction of the row schema. -/
def Row.toDomain (r : Row) : Entity :=
  { id := r.id, payload := r.payload }

/-- The relational state: the relations named in the statement constants,
each a list of rows, plus the `school_teacher` join relation as a list of
`(teacher_id, school_id)` pairs. -/
structure DB where
  user : List Row
  school : List Row
  course : List Row
  review : List Row
  certificate : List Row
  school_teacher : List (String × String)
deriving DecidableEq, Repr

/-- First row with the given id, the semantics of `SELECT ... WHERE id = $1`
consumed through `GetContext`. -/
def findRow : List Row → String → Option Row
  | [], _ => none
  | r :: rest, id => if r.id = id then some r else findRow rest id

/-- Whether some row carries the given id. -/
def hasRow : List Row → String → Bool
  | [], _ => false
  | r :: rest, id => if r.id = id then true else hasRow rest id

/-- Semantics of `DELETE ... WHERE id = $1`: drop every row with the id. -/
def removeRows : List Row → String → List Row
  | [], _ => []
  | r :: rest, id => if r.id = id then removeRows rest id
                     else r :: removeRows rest id

/-- Semantics of the generic `UPDATE ... WHERE id = :id`: replace each row
whose id matches; zero matching rows leave the relation unchanged and the
statement still succeeds. -/
def updateRows : List Row → Row → List Row
  | [], _ => []
  | r :: rest, nr => (if r.id = nr.id then nr else r) :: updateRows rest nr

/-- Whether the join relation holds a `(teacher_id, school_id)` pair. -/
def hasPair : List (String × String) → String → String → Bool
  | [], _, _ => false
  | (t, s) :: rest, tid, sid =>
      if t = tid ∧ s = sid then true else hasPair rest tid sid

/-- The rows of the relation a statement names, `none` for an unknown
relation. -/
def DB.tableRows (db : DB) (t : String) : Option (List Row) :=
  if t = "user" then some db.user
  else if t = "school" then some db.school
  else if t = "course" then some db.course
  else if t = "review" then some db.review
  else if t = "certificate" then some db.certificate
  else none

/-- Replace the rows of the named relation. -/
def DB.setTable (db : DB) (t : String) (rows : List Row) : DB :=
  if t = "user" then { db with user := rows }
  else if t = "school" then { db with school := rows }
  else if t = "course" then { db with course := rows }
  else if t = "review" then { db with review := rows }
  else if t = "certificate" then { db with certificate := rows }
  else db

/-! Statement constants, verbatim from the source files. -/

def userFindByIDQuery : String := "SELECT * FROM public.user WHERE id = $1"

def userDeleteQuery : String := "DELETE FROM public.user WHERE id = $1"

def schoolFindByIDQuery : String := "SELECT * FROM public.school WHERE id = $1"

def schoolDeleteQuery : String := "DELETE FROM public.school WHERE id = $1"

def reviewFindByIDQuery : String := "SELECT * FROM public.review WHERE id = $1"

def reviewDeleteQuery : String := "DELETE FROM public.school WHERE id = $1"

def certificateFindByIDQuery : String := "SELECT * FROM public.certificate WHERE id = $1"

def schoolAddTeacherQuery : String :=
  "INSERT INTO public.school_teacher (teacher_id, school_id) VALUES ($1, $2)"

/-- The relation a `SELECT * FROM public.<t> WHERE id = $1` statement reads:
the server resolves the statement text against the schema. -/
def selectByIDTable (q : String) : Option String :=
  if q = "SELECT * FROM public.user WHERE id = $1" then some "user"
  else if q = "SELECT * FROM public.school WHERE id = $1" then some "school"
  else if q = "SELECT * FROM public.review WHERE id = $1" then some "review"
  else if q = "SELECT * FROM public.certificate WHERE id = $1" then some "certificate"
  else none

/-- The relation a `DELETE FROM public.<t> WHERE id = $1` statement targets:
the server resolves the statement text against the schema, regardless of
which repository issued it. -/
def deleteTargetTable (q : String) : Option String :=
  if q = "DELETE FROM public.user WHERE id = $1" then some "user"
  else if q = "DELETE FROM public.school WHERE id = $1" then some "school"
  else if q = "DELETE FROM public.review WHERE id = $1" then some "review"
  else if q = "DELETE FROM public.certificate WHERE id = $1" then some "certificate"
  else none

/-- Driver execution of a `GetContext` read by id: `noRows` when no row
matches (the driver's `sql.ErrNoRows`). -/
def execGetByID (db : DB) (q : String) (id : String) : ExecResult Row :=
  match selectByIDTable q with
  | none => .fail .other
  | some t =>
    match db.tableRows t with
    | none => .fail .other
    | some rows =>
      match findRow rows id with
      | some r => .ok r
      | none => .fail .noRows

/-- Driver execution of the generic INSERT built by
`entity.InsertQueryString(row, t)` (the statement builder is in the
`entity` package, absent from `src/`; modelled from the spec as a
parameterized INSERT of every column into relation `t`).  The server
rejects a primary-key collision with the uniqueness-violation code. -/
def execInsert (db : DB) (t : String) (r : Row) : ExecResult DB :=
  match db.tableRows t with
  | none => .fail .other
  | some rows =>
    if hasRow rows r.id then .fail (.pg PgUniqueViolationCode)
    else .ok (db.setTable t (rows ++ [r]))

/-- Driver execution of the generic UPDATE built by
`entity.UpdateQueryString(row, t)` (modelled from the spec: every non-key
column bound, the key column as the WHERE predicate).  Matching zero rows
is not an error. -/
def execUpdate (db : DB) (t : String) (r : Row) : ExecResult DB :=
  match db.tableRows t with
  | none => .fail .other
  | some rows => .ok (db.setTable t (updateRows rows r))

/-- Driver execution of a delete-by-id statement: the targeted relation is
the one named in the statement text. -/
def execDeleteByID (db : DB) (q : String) (id : String) : ExecResult DB :=
  match deleteTargetTable q with
  | none => .fail .other
  | some t =>
    match db.tableRows t with
    | none => .fail .other
    | some rows => .ok (db.setTable t (removeRows rows id))

/-- Driver execution of `schoolAddTeacherQuery`: insert the
`(teacher_id, school_id)` pair, rejecting a duplicate membership with the
uniqueness-violation code. -/
def execInsertTeacher (db : DB) (teacherID schoolID : String) : ExecResult DB :=
  if hasPair db.school_teacher teacherID schoolID then
    .fail (.pg PgUniqueViolationCode)
  else .ok { db with school_teacher := db.school_teacher ++ [(teacherID, schoolID)] }

/-- The read-path classification appearing verbatim in every finder:
`if err == sql.ErrNoRows` wrap `errs.ErrNotExist` else wrap
`errs.ErrPersistenceFailed`. -/
def classifyReadErr (e : DriverError) : ErrKind :=
  match e with
  | .noRows => .errNotExist
  | _ => .errPersistenceFailed

/-- The insert-path classification of `PostgresUserRepo.Create`,
`PostgresSchoolRepo.Create`, `PostgresReviewRepo.Create` and
`PostgresSchoolRepo.AddSchoolTeacher`: `errors.As(err, &pgErr)` then
`pgErr.Code == PgUniqueViolationCode` wraps `errs.ErrDuplicate`, any other
code and any non-pg error wrap `errs.ErrPersistenceFailed`. -/
def classifyCreateErr (e : DriverError) : ErrKind :=
  match e with
  | .pg code =>
    if code = PgUniqueViolationCode then .errDuplicate
    else .errPersistenceFailed
  | _ => .errPersistenceFailed

/-- The insert-path classification of `PostgresCertificateRepo.Create`,
which additionally maps `pgErr.Code == PgEnumValueError` to
`errs.ErrEnumValueError`. -/
def classifyCertCreateErr (e : DriverError) : ErrKind :=
  match e with
  | .pg code =>
    if code = PgUniqueViolationCode then .errDuplicate
    else if code = PgEnumValueError then .errEnumValueError
    else .errPersistenceFailed
  | _ => .errPersistenceFailed

namespace PostgresUserRepo

/-- `PostgresUserRepo.FindByID`: `GetContext` with `userFindByIDQuery`;
`sql.ErrNoRows` wraps `ErrNotExist`, any other failure wraps
`ErrPersistenceFailed`; on success the row converts via `ToDomain`. -/
def FindByID (db : DB) (fault : Option DriverError) (userID : String) :
    RepoResult Entity :=
  match withFault fault (execGetByID db userFindByIDQuery userID) with
  | .fail e => .err (.classified (classifyReadErr e) e)
  | .ok r => .ok r.toDomain

/-- `PostgresUserRepo.Create`: build the row with `entity.NewPgUser`,
execute the generic INSERT into relation `user`, classify an insert failure
(`Duplicate` on the uniqueness code, else `PersistenceFailed`), then read
back by the assigned ID with `userFindByIDQuery` and return the read-back
row converted to a domain entity. -/
def Create (db : DB) (freshID : String) (insFault rbFault : Option DriverError)
    (user : Entity) : DB × RepoResult Entity :=
  let pgUser := NewPgRow freshID user
  match withFault insFault (execInsert db "user" pgUser) with
  | .fail e => (db, .err (.classified (classifyCreateErr e) e))
  | .ok db' =>
    match withFault rbFault (execGetByID db' userFindByIDQuery pgUser.id) with
    | .fail e => (db', .err (.classified (classifyReadErr e) e))
    | .ok r => (db', .ok r.toDomain)

/-- `PostgresUserRepo.Update`: build the row with `entity.NewPgUser`,
execute the generic UPDATE keyed by ID against relation `user` — any
failure of that statement wraps `ErrUpdateFailed` — then read back by the
row's ID with `userFindByIDQuery` under the read-path classification. -/
def Update (db : DB) (freshID : String) (updFault rbFault : Option DriverError)
    (user : Entity) : DB × RepoResult Entity :=
  let pgUser := NewPgRow freshID user
  match withFault updFault (execUpdate db "user" pgUser) with
  | .fail e => (db, .err (.classified .errUpdateFailed e))
  | .ok db' =>
    match withFault rbFault (execGetByID db' userFindByIDQuery pgUser.id) with
    | .fail e => (db', .err (.classified (classifyReadErr e) e))
    | .ok r => (db', .ok r.toDomain)

/-- `PostgresUserRepo.Delete`: execute `userDeleteQuery`; any failure wraps
`ErrDeleteFailed`; otherwise return nil with no inspection of how many rows
matched. -/
def Delete (db : DB) (fault : Option DriverError) (userID : String) :
    DB × RepoResult Unit :=
  match withFault fault (execDeleteByID db userDeleteQuery userID) with
  | .fail e => (db, .err (.classified .errDeleteFailed e))
  | .ok db' => (db', .ok ())

end PostgresUserRepo

namespace PostgresSchoolRepo

/-- `PostgresSchoolRepo.FindByID`: `GetContext` with `schoolFindByIDQuery`
under the read-path classification. -/
def FindByID (db : DB) (fault : Option DriverError) (schoolID : String) :
    RepoResult Entity :=
  match withFault fault (execGetByID db schoolFindByIDQuery schoolID) with
  | .fail e => .err (.classified (classifyReadErr e) e)
  | .ok r => .ok r.toDomain

/-- `PostgresSchoolRepo.IsSchoolTeacher`: existence check on the
`school_teacher` join relation; on failure the driver error is returned
raw (`return false, err`), with no classification. -/
def IsSchoolTeacher (db : DB) (fault : Option DriverError)
    (schoolID teacherID : String) : RepoResult Bool :=
  match withFault fault (.ok (hasPair db.school_teacher teacherID schoolID)) with
  | .fail e => .err (.raw e)
  | .ok b => .ok b

/-- `PostgresSchoolRepo.AddSchoolTeacher`: execute `schoolAddTeacherQuery`
with `(teacherID, schoolID)`; a pg error with the uniqueness code wraps
`ErrDuplicate`, any other failure wraps `ErrPersistenceFailed`. -/
def AddSchoolTeacher (db : DB) (fault : Option DriverError)
    (schoolID teacherID : String) : DB × RepoResult Unit :=
  match withFault fault (execInsertTeacher db teacherID schoolID) with
  | .fail e => (db, .err (.classified (classifyCreateErr e) e))
  | .ok db' => (db', .ok ())

/-- `PostgresSchoolRepo.Create`: generic INSERT into relation `school`,
then read-back with `schoolFindByIDQuery`; same shape as the user Create. -/
def Create (db : DB) (freshID : String) (insFault rbFault : Option DriverError)
    (school : Entity) : DB × RepoResult Entity :=
  let pgSchool := NewPgRow freshID school
  match withFault insFault (execInsert db "school" pgSchool) with
  | .fail e => (db, .err (.classified (classifyCreateErr e) e))
  | .ok db' =>
    match withFault rbFault (execGetByID db' schoolFindByIDQuery pgSchool.id) with
    | .fail e => (db', .err (.classified (classifyReadErr e) e))
    | .ok r => (db', .ok r.toDomain)

/-- `PostgresSchoolRepo.Update`: generic UPDATE against relation `school`
(any statement failure wraps `ErrUpdateFailed`), then read-back with
`schoolFindByIDQuery`. -/
def Update (db : DB) (freshID : String) (updFault rbFault : Option DriverError)
    (school : Entity) : DB × RepoResult Entity :=
  let pgSchool := NewPgRow freshID school
  match withFault updFault (execUpdate db "school" pgSchool) with
  | .fail e => (db, .err (.classified .errUpdateFailed e))
  | .ok db' =>
    match withFault rbFault (execGetByID db' schoolFindByIDQuery pgSchool.id) with
    | .fail e => (db', .err (.classified (classifyReadErr e) e))
    | .ok r => (db', .ok r.toDomain)

/-- `PostgresSchoolRepo.Delete`: execute `schoolDeleteQuery`; any failure
wraps `ErrDeleteFailed`. -/
def Delete (db : DB) (fault : Option DriverError) (schoolID : String) :
    DB × RepoResult Unit :=
  match withFault fault (execDeleteByID db schoolDeleteQuery schoolID) with
  | .fail e => (db, .err (.classified .errDeleteFailed e))
  | .ok db' => (db', .ok ())

end PostgresSchoolRepo

namespace PostgresReviewRepo

/-- `PostgresReviewRepo.FindByID`: `GetContext` with `reviewFindByIDQuery`
under the read-path classification. -/
def FindByID (db : DB) (fault : Option DriverError) (reviewID : String) :
    RepoResult Entity :=
  match withFault fault (execGetByID db reviewFindByIDQuery reviewID) with
  | .fail e => .err (.classified (classifyReadErr e) e)
  | .ok r => .ok r.toDomain

/-- `PostgresReviewRepo.Create`: generic INSERT into relation `review`,
then read-back with `reviewFindByIDQuery`; same shape as the user Create. -/
def Create (db : DB) (freshID : String) (insFault rbFault : Option DriverError)
    (review : Entity) : DB × RepoResult Entity :=
  let pgReview := NewPgRow freshID review
  match withFault insFault (execInsert db "review" pgReview) with
  | .fail e => (db, .err (.classified (classifyCreateErr e) e))
  | .ok db' =>
    match withFault rbFault (execGetByID db' reviewFindByIDQuery pgReview.id) with
    | .fail e => (db', .err (.classified (classifyReadErr e) e))
    | .ok r => (db', .ok r.toDomain)

/-- `PostgresReviewRepo.Delete`: execute `reviewDeleteQuery` — whose literal
text is `DELETE FROM public.school WHERE id = $1` — with the review ID; any
failure wraps `ErrDeleteFailed`. -/
def Delete (db : DB) (fault : Option DriverError) (reviewID : String) :
    DB × RepoResult Unit :=
  match withFault fault (execDeleteByID db reviewDeleteQuery reviewID) with
  | .fail e => (db, .err (.classified .errDeleteFailed e))
  | .ok db' => (db', .ok ())

end PostgresReviewRepo

namespace PostgresCertificateRepo

/-- `PostgresCertificateRepo.FindByID`: `GetContext` with
`certificateFindByIDQuery` under the read-path classification. -/
def FindByID (db : DB) (fault : Option DriverError) (certID : String) :
    RepoResult Entity :=
  match withFault fault (execGetByID db certificateFindByIDQuery certID) with
  | .fail e => .err (.classified (classifyReadErr e) e)
  | .ok r => .ok r.toDomain

/-- `PostgresCertificateRepo.Create`: generic INSERT into relation
`certificate`, classifying a pg error by code — uniqueness code wraps
`ErrDuplicate`, `PgEnumValueError` wraps `ErrEnumValueError`, anything else
wraps `ErrPersistenceFailed` — then read-back with
`certificateFindByIDQuery`. -/
def Create (db : DB) (freshID : String) (insFault rbFault : Option DriverError)
    (cert : Entity) : DB × RepoResult Entity :=
  let pgCert := NewPgRow freshID cert
  match withFault insFault (execInsert db "certificate" pgCert) with
  | .fail e => (db, .err (.classified (classifyCertCreateErr e) e))
  | .ok db' =>
    match withFault rbFault (execGetByID db' certificateFindByIDQuery pgCert.id) with
    | .fail e => (db', .err (.classified (classifyReadErr e) e))
    | .ok r => (db', .ok r.toDomain)

end PostgresCertificateRepo

/-! Concrete sample states used by the closed evaluations below. -/

/-- The empty relational state. -/
def db0 : DB :=
  { user := [], school := [], course := [], review := [],
    certificate := [], school_teacher := [] }

/-- A review row with id `r1`. -/
def reviewRow1 : Row := { id := "r1", payload := "review-of-course" }

/-- A school row that happens to carry the same id `r1`. -/
def schoolRow1 : Row := { id := "r1", payload := "some-school" }

/-- A state holding the review `r1` and a school with the same id. -/
def dbC1 : DB := { db0 with review := [reviewRow1], school := [schoolRow1] }

/-- A domain entity with no assigned ID. -/
def e0 : Entity := { id := "", payload := "p0" }

/-- The state after inserting `e0` (assigned id `u1`) into the empty state. -/
def dbU1 : DB := { db0 with user := [{ id := "u1", payload := "p0" }] }

/-- A state whose join relation already holds membership `(t1, s1)`. -/
def dbST : DB := { db0 with school_teacher := [("t1", "s1")] }

/-! Helper lemmas: closed forms of the statement executions against the
known statement constants, and list-level facts about the relational
semantics. -/

theorem withFault_none {α : Type} (r : ExecResult α) : withFault none r = r := rfl

theorem withFault_some {α : Type} (e : DriverError) (r : ExecResult α) :
    withFault (some e) r = .fail e := rfl

theorem tableRows_user (db : DB) : db.tableRows "user" = some db.user := rfl

theorem tableRows_school (db : DB) : db.tableRows "school" = some db.school := rfl

theorem tableRows_review (db : DB) : db.tableRows "review" = some db.review := rfl

theorem setTable_user_self (db : DB) : db.setTable "user" db.user = db := by
  cases db; rfl

theorem setTable_school_self (db : DB) : db.setTable "school" db.school = db := by
  cases db; rfl

theorem setTable_user_user (db : DB) (rows : List Row) :
    (db.setTable "user" rows).user = rows := rfl

theorem setTable_school_school (db : DB) (rows : List Row) :
    (db.setTable "school" rows).school = rows := rfl

theorem execGetByID_user (db : DB) (id : String) :
    execGetByID db userFindByIDQuery id =
      match findRow db.user id with
      | some r => .ok r
      | none => .fail .noRows := rfl

theorem execGetByID_school (db : DB) (id : String) :
    execGetByID db schoolFindByIDQuery id =
      match findRow db.school id with
      | some r => .ok r
      | none => .fail .noRows := rfl

theorem execGetByID_review (db : DB) (id : String) :
    execGetByID db reviewFindByIDQuery id =
      match findRow db.review id with
      | some r => .ok r
      | none => .fail .noRows := rfl

theorem execInsert_user (db : DB) (r : Row) :
    execInsert db "user" r =
      if hasRow db.user r.id then .fail (.pg PgUniqueViolationCode)
      else .ok (db.setTable "user" (db.user ++ [r])) := rfl

theorem execInsert_school (db : DB) (r : Row) :
    execInsert db "school" r =
      if hasRow db.school r.id then .fail (.pg PgUniqueViolationCode)
      else .ok (db.setTable "school" (db.school ++ [r])) := rfl

theorem execUpdate_user (db : DB) (r : Row) :
    execUpdate db "user" r = .ok (db.setTable "user" (updateRows db.user r)) := rfl

theorem execUpdate_school (db : DB) (r : Row) :
    execUpdate db "school" r = .ok (db.setTable "school" (updateRows db.school r)) := rfl

theorem execDeleteByID_user (db : DB) (id : String) :
    execDeleteByID db userDeleteQuery id =
      .ok (db.setTable "user" (removeRows db.user id)) := rfl

theorem execDeleteByID_school (db : DB) (id : String) :
    execDeleteByID db schoolDeleteQuery id =
      .ok (db.setTable "school" (removeRows db.school id)) := rfl

theorem execDeleteByID_review (db : DB) (id : String) :
    execDeleteByID db reviewDeleteQuery id =
      .ok (db.setTable "school" (removeRows db.school id)) := rfl

theorem findRow_none_of_not_has (rows : List Row) (id : String)
    (h : hasRow rows id = false) : findRow rows id = none := by
  induction rows with
  | nil => rfl
  | cons x xs ih =>
    rw [hasRow] at h
    by_cases hx : x.id = id
    · rw [if_pos hx] at h; exact Bool.noConfusion h
    · rw [if_neg hx] at h; rw [findRow, if_neg hx]; exact ih h

theorem findRow_append_self (rows : List Row) (r : Row)
    (h : hasRow rows r.id = false) : findRow (rows ++ [r]) r.id = some r := by
  induction rows with
  | nil => simp [findRow]
  | cons x xs ih =>
    rw [hasRow] at h
    by_cases hx : x.id = r.id
    · rw [if_pos hx] at h; exact Bool.noConfusion h
    · rw [if_neg hx] at h
      rw [List.cons_append, findRow, if_neg hx]
      exact ih h

theorem updateRows_of_not_has (rows : List Row) (r : Row)
    (h : hasRow rows r.id = false) : updateRows rows r = rows := by
  induction rows with
  | nil => rfl
  | cons x xs ih =>
    rw [hasRow] at h
    by_cases hx : x.id = r.id
    · rw [if_pos hx] at h; exact Bool.noConfusion h
    · rw [if_neg hx] at h; rw [updateRows, if_neg hx, ih h]

theorem removeRows_of_not_has (rows : List Row) (id : String)
    (h : hasRow rows id = false) : removeRows rows id = rows := by
  induction rows with
  | nil => rfl
  | cons x xs ih =>
    rw [hasRow] at h
    by_cases hx : x.id = id
    · rw [if_pos hx] at h; exact Bool.noConfusion h
    · rw [if_neg hx] at h; rw [removeRows, if_neg hx, ih h]

theorem userFindByID_none (db : DB) (id : String) :
    PostgresUserRepo.FindByID db none id =
      match findRow db.user id with
      | some r => .ok r.toDomain
      | none => .err (.classified .errNotExist .noRows) := by
  unfold PostgresUserRepo.FindByID
  rw [withFault_none, execGetByID_user]
  cases findRow db.user id <;> rfl

theorem schoolFindByID_none (db : DB) (id : String) :
    PostgresSchoolRepo.FindByID db none id =
      match findRow db.school id with
      | some r => .ok r.toDomain
      | none => .err (.classified .errNotExist .noRows) := by
  unfold PostgresSchoolRepo.FindByID
  rw [withFault_none, execGetByID_school]
  cases findRow db.school id <;> rfl

theorem reviewFindByID_none (db : DB) (id : String) :
    PostgresReviewRepo.FindByID db none id =
      match findRow db.review id with
      | some r => .ok r.toDomain
      | none => .err (.classified .errNotExist .noRows) := by
  unfold PostgresReviewRepo.FindByID
  rw [withFault_none, execGetByID_review]
  cases findRow db.review id <;> rfl

theorem classified_user_findByID (db : DB) (fault : Option DriverError)
    (id : String) : Classified (PostgresUserRepo.FindByID db fault id) := by
  intro e
  unfold PostgresUserRepo.FindByID
  cases hx : withFault fault (execGetByID db userFindByIDQuery id) with
  | fail g => simp
  | ok r => simp

theorem classified_school_findByID (db : DB) (fault : Option DriverError)
    (id : String) : Classified (PostgresSchoolRepo.FindByID db fault id) := by
  intro e
  unfold PostgresSchoolRepo.FindByID
  cases hx : withFault fault (execGetByID db schoolFindByIDQuery id) with
  | fail g => simp
  | ok r => simp

theorem classified_review_findByID (db : DB) (fault : Option DriverError)
    (id : String) : Classified (PostgresReviewRepo.FindByID db fault id) := by
  intro e
  unfold PostgresReviewRepo.FindByID
  cases hx : withFault fault (execGetByID db reviewFindByIDQuery id) with
  | fail g => simp
  | ok r => simp

theorem classified_certificate_findByID (db : DB) (fault : Option DriverError)
    (id : String) : Classified (PostgresCertificateRepo.FindByID db fault id) := by
  intro e
  unfold PostgresCertificateRepo.FindByID
  cases hx : withFault fault (execGetByID db certificateFindByIDQuery id) with
  | fail g => simp
  | ok r => simp

theorem classified_user_create (db : DB) (freshID : String)
    (iF rF : Option DriverError) (x : Entity) :
    Classified (PostgresUserRepo.Create db freshID iF rF x).2 := by
  intro e
  simp only [PostgresUserRepo.Create]
  cases h1 : withFault iF (execInsert db "user" (NewPgRow freshID x)) with
  | fail g => simp
  | ok db1 =>
    cases h2 : withFault rF (execGetByID db1 userFindByIDQuery (NewPgRow freshID x).id) with
    | fail g => simp [h2]
    | ok r => simp [h2]

theorem classified_school_create (db : DB) (freshID : String)
    (iF rF : Option DriverError) (x : Entity) :
    Classified (PostgresSchoolRepo.Create db freshID iF rF x).2 := by
  intro e
  simp only [PostgresSchoolRepo.Create]
  cases h1 : withFault iF (execInsert db "school" (NewPgRow freshID x)) with
  | fail g => simp
  | ok db1 =>
    cases h2 : withFault rF (execGetByID db1 schoolFindByIDQuery (NewPgRow freshID x).id) with
    | fail g => simp [h2]
    | ok r => simp [h2]

theorem classified_review_create (db : DB) (freshID : String)
    (iF rF : Option DriverError) (x : Entity) :
    Classified (PostgresReviewRepo.Create db freshID iF rF x).2 := by
  intro e
  simp only [PostgresReviewRepo.Create]
  cases h1 : withFault iF (execInsert db "review" (NewPgRow freshID x)) with
  | fail g => simp
  | ok db1 =>
    cases h2 : withFault rF (execGetByID db1 reviewFindByIDQuery (NewPgRow freshID x).id) with
    | fail g => simp [h2]
    | ok r => simp [h2]

theorem classified_certificate_create (db : DB) (freshID : String)
    (iF rF : Option DriverError) (x : Entity) :
    Classified (PostgresCertificateRepo.Create db freshID iF rF x).2 := by
  intro e
  simp only [PostgresCertificateRepo.Create]
  cases h1 : withFault iF (execInsert db "certificate" (NewPgRow freshID x)) with
  | fail g => simp
  | ok db1 =>
    cases h2 : withFault rF (execGetByID db1 certificateFindByIDQuery (NewPgRow freshID x).id) with
    | fail g => simp [h2]
    | ok r => simp [h2]

theorem classified_user_update (db : DB) (freshID : String)
    (uF rF : Option DriverError) (x : Entity) :
    Classified (PostgresUserRepo.Update db freshID uF rF x).2 := by
  intro e
  simp only [PostgresUserRepo.Update]
  cases h1 : withFault uF (execUpdate db "user" (NewPgRow freshID x)) with
  | fail g => simp
  | ok db1 =>
    cases h2 : withFault rF (execGetByID db1 userFindByIDQuery (NewPgRow freshID x).id) with
    | fail g => simp [h2]
    | ok r => simp [h2]

theorem classified_school_update (db : DB) (freshID : String)
    (uF rF : Option DriverError) (x : Entity) :
    Classified (PostgresSchoolRepo.Update db freshID uF rF x).2 := by
  intro e
  simp only [PostgresSchoolRepo.Update]
  cases h1 : withFault uF (execUpdate db "school" (NewPgRow freshID x)) with
  | fail g => simp
  | ok db1 =>
    cases h2 : withFault rF (execGetByID db1 schoolFindByIDQuery (NewPgRow freshID x).id) with
    | fail g => simp [h2]
    | ok r => simp [h2]

theorem classified_user_delete (db : DB) (fault : Option DriverError)
    (id : String) : Classified (PostgresUserRepo.Delete db fault id).2 := by
  intro e
  simp only [PostgresUserRepo.Delete]
  cases hx : withFault fault (execDeleteByID db userDeleteQuery id) with
  | fail g => simp
  | ok db1 => simp

theorem classified_school_delete (db : DB) (fault : Option DriverError)
    (id : String) : Classified (PostgresSchoolRepo.Delete db fault id).2 := by
  intro e
  simp only [PostgresSchoolRepo.Delete]
  cases hx : withFault fault (execDeleteByID db schoolDeleteQuery id) with
  | fail g => simp
  | ok db1 => simp

theorem classified_review_delete (db : DB) (fault : Option DriverError)
    (id : String) : Classified (PostgresReviewRepo.Delete db fault id).2 := by
  intro e
  simp only [PostgresReviewRepo.Delete]
  cases hx : withFault fault (execDeleteByID db reviewDeleteQuery id) with
  | fail g => simp
  | ok db1 => simp

theorem classified_add_school_teacher (db : DB) (fault : Option DriverError)
    (sid tid : String) :
    Classified (PostgresSchoolRepo.AddSchoolTeacher db fault sid tid).2 := by
  intro e
  simp only [PostgresSchoolRepo.AddSchoolTeacher]
  cases hx : withFault fault (execInsertTeacher db tid sid) with
  | fail g => simp
  | ok db1 => simp

/-! The claims. -/

/-- Claim C1: the review repository's `Delete(id)` is claimed to execute a
delete keyed by id against the review relation, removing the review row and
affecting no other relation.  The code's `reviewDeleteQuery` literally reads
`DELETE FROM public.school WHERE id = $1`: on a state holding review `r1`
and a school row with the same id, `PostgresReviewRepo.Delete` reports
success, leaves the review relation unchanged, and removes the school row. -/
theorem c1_review_delete_targets_school_relation :
    (PostgresReviewRepo.Delete dbC1 none "r1").2 = .ok () ∧
    (PostgresReviewRepo.Delete dbC1 none "r1").1.review = [reviewRow1] ∧
    (PostgresReviewRepo.Delete dbC1 none "r1").1.school = [] :=
  ⟨rfl, rfl, rfl⟩

/-- Claim C2 (counterexample): `PostgresSchoolRepo.IsSchoolTeacher` does not
apply the error classifier — on an unrecognized driver failure it returns
the raw driver error (`return false, err`), not a `PersistenceFailed`
wrap, so not every repository method classifies every failure. -/
theorem c2_counterexample_is_school_teacher_returns_raw :
    PostgresSchoolRepo.IsSchoolTeacher db0 (some .other) "s1" "t1" =
      .err (.raw .other) ∧
    RepoErr.raw .other ≠ RepoErr.classified .errPersistenceFailed .other :=
  ⟨rfl, by decide⟩

/-- Claim C2 (amended): every repository method except
`PostgresSchoolRepo.IsSchoolTeacher` wraps each failure it returns into one
of the fixed domain error kinds (never the raw driver error);
`IsSchoolTeacher` alone propagates the raw driver failure unclassified. -/
theorem c2_amended_classifier_uniform_except_is_school_teacher :
    ∀ (db : DB) (fault : DriverError) (iF rF : Option DriverError)
      (freshID id sid tid : String) (x : Entity),
      PostgresSchoolRepo.IsSchoolTeacher db (some fault) sid tid =
        .err (.raw fault) ∧
      Classified (PostgresUserRepo.FindByID db iF id) ∧
      Classified (PostgresUserRepo.Create db freshID iF rF x).2 ∧
      Classified (PostgresUserRepo.Update db freshID iF rF x).2 ∧
      Classified (PostgresUserRepo.Delete db iF id).2 ∧
      Classified (PostgresSchoolRepo.FindByID db iF id) ∧
      Classified (PostgresSchoolRepo.Create db freshID iF rF x).2 ∧
      Classified (PostgresSchoolRepo.Update db freshID iF rF x).2 ∧
      Classified (PostgresSchoolRepo.Delete db iF id).2 ∧
      Classified (PostgresSchoolRepo.AddSchoolTeacher db iF sid tid).2 ∧
      Classified (PostgresReviewRepo.FindByID db iF id) ∧
      Classified (PostgresReviewRepo.Create db freshID iF rF x).2 ∧
      Classified (PostgresReviewRepo.Delete db iF id).2 ∧
      Classified (PostgresCertificateRepo.FindByID db iF id) ∧
      Classified (PostgresCertificateRepo.Create db freshID iF rF x).2 :=
  fun db _ iF rF freshID id sid tid x =>
    ⟨rfl, classified_user_findByID db iF id,
     classified_user_create db freshID iF rF x,
     classified_user_update db freshID iF rF x,
     classified_user_delete db iF id,
     classified_school_findByID db iF id,
     classified_school_create db freshID iF rF x,
     classified_school_update db freshID iF rF x,
     classified_school_delete db iF id,
     classified_add_school_teacher db iF sid tid,
     classified_review_findByID db iF id,
     classified_review_create db freshID iF rF x,
     classified_review_delete db iF id,
     classified_certificate_findByID db iF id,
     classified_certificate_create db freshID iF rF x⟩

/-- Claim C3 (counterexample): the user repository's Create maps an
enumerated-value constraint violation (`PgEnumValueError` code) to
`PersistenceFailed`, not `EnumValueError` — only the certificate repository
checks that code. -/
theorem c3_counterexample_user_enum_violation_persistence_failed :
    (PostgresUserRepo.Create db0 "u1" (some (.pg PgEnumValueError)) none e0).2 =
      .err (.classified .errPersistenceFailed (.pg PgEnumValueError)) ∧
    ErrKind.errPersistenceFailed ≠ ErrKind.errEnumValueError :=
  ⟨rfl, by decide⟩

/-- Claim C3 (amended): only `PostgresCertificateRepo.Create` classifies an
INSERT failure carrying the enumerated-value-violation code as
`EnumValueError`; the user, school and review Creates return
`PersistenceFailed` for the same failure. -/
theorem c3_amended_enum_value_error_only_certificate_create :
    ∀ (db : DB) (freshID : String) (rF : Option DriverError) (x : Entity),
      (PostgresCertificateRepo.Create db freshID (some (.pg PgEnumValueError)) rF x).2 =
        .err (.classified .errEnumValueError (.pg PgEnumValueError)) ∧
      (PostgresUserRepo.Create db freshID (some (.pg PgEnumValueError)) rF x).2 =
        .err (.classified .errPersistenceFailed (.pg PgEnumValueError)) ∧
      (PostgresSchoolRepo.Create db freshID (some (.pg PgEnumValueError)) rF x).2 =
        .err (.classified .errPersistenceFailed (.pg PgEnumValueError)) ∧
      (PostgresReviewRepo.Create db freshID (some (.pg PgEnumValueError)) rF x).2 =
        .err (.classified .errPersistenceFailed (.pg PgEnumValueError)) :=
  fun _ _ _ _ => ⟨rfl, rfl, rfl, rfl⟩

/-- Claim C4 (counterexample): a context-cancellation failure on `FindByID`
is not propagated as a kind distinct from the storage-failure kinds — it is
wrapped as `PersistenceFailed`, a member of the storage-error taxonomy. -/
theorem c4_counterexample_cancellation_wrapped_as_persistence_failed :
    PostgresUserRepo.FindByID db0 (some .ctxCanceled) "u1" =
      .err (.classified .errPersistenceFailed .ctxCanceled) := rfl

/-- Claim C4 (amended): when the caller's cancellation or deadline signal
fires, the resulting failure is wrapped into the storage-error taxonomy —
`PersistenceFailed` on reads and creates, `UpdateFailed` on updates,
`DeleteFailed` on deletes — with the cancellation cause retained only as
wrapped context, not surfaced as a distinct kind. -/
theorem c4_amended_cancellation_enters_storage_taxonomy :
    ∀ (db : DB) (id freshID : String) (rF : Option DriverError) (x : Entity),
      PostgresUserRepo.FindByID db (some .ctxCanceled) id =
        .err (.classified .errPersistenceFailed .ctxCanceled) ∧
      PostgresUserRepo.FindByID db (some .ctxDeadline) id =
        .err (.classified .errPersistenceFailed .ctxDeadline) ∧
      (PostgresUserRepo.Delete db (some .ctxCanceled) id).2 =
        .err (.classified .errDeleteFailed .ctxCanceled) ∧
      (PostgresUserRepo.Update db freshID (some .ctxCanceled) rF x).2 =
        .err (.classified .errUpdateFailed .ctxCanceled) ∧
      (PostgresUserRepo.Create db freshID (some .ctxCanceled) rF x).2 =
        .err (.classified .errPersistenceFailed .ctxCanceled) :=
  fun _ _ _ _ _ => ⟨rfl, rfl, rfl, rfl, rfl⟩

/-- Claim C5: a successful `Create` builds the row (assigning the fresh ID
when the entity's ID is unset), appends it to the relation by the generic
INSERT, and returns the read-back row converted to a domain entity, so a
subsequent `FindByID` at the returned ID yields exactly the entity `Create`
returned.  Shown for the user and school repositories. -/
theorem c5_create_sequence_and_create_then_read :
    ∀ (db : DB) (freshID : String) (x : Entity) (db' : DB) (created : Entity),
      (PostgresUserRepo.Create db freshID none none x = (db', .ok created) →
        created = (NewPgRow freshID x).toDomain ∧
        db'.user = db.user ++ [NewPgRow freshID x] ∧
        PostgresUserRepo.FindByID db' none created.id = .ok created) ∧
      (PostgresSchoolRepo.Create db freshID none none x = (db', .ok created) →
        created = (NewPgRow freshID x).toDomain ∧
        db'.school = db.school ++ [NewPgRow freshID x] ∧
        PostgresSchoolRepo.FindByID db' none created.id = .ok created) := by
  intro db freshID x db' created
  constructor
  · intro h
    cases hh : hasRow db.user (NewPgRow freshID x).id with
    | true =>
      simp [PostgresUserRepo.Create, withFault_none, execInsert_user, hh,
        Prod.mk.injEq] at h
    | false =>
      have hc : PostgresUserRepo.Create db freshID none none x =
          (db.setTable "user" (db.user ++ [NewPgRow freshID x]),
           .ok (NewPgRow freshID x).toDomain) := by
        simp only [PostgresUserRepo.Create, withFault_none, execInsert_user, hh,
          Bool.false_eq_true, if_false, execGetByID_user, setTable_user_user,
          findRow_append_self db.user _ hh]
      rw [hc] at h
      have hdb : db.setTable "user" (db.user ++ [NewPgRow freshID x]) = db' :=
        congrArg Prod.fst h
      have hcr : created = (NewPgRow freshID x).toDomain := by
        have h2 := congrArg Prod.snd h
        simp only [RepoResult.ok.injEq] at h2
        exact h2.symm
      subst hdb
      refine ⟨hcr, setTable_user_user db _, ?_⟩
      rw [userFindByID_none, setTable_user_user]
      have hid : created.id = (NewPgRow freshID x).id := by rw [hcr]; rfl
      rw [hid, findRow_append_self db.user _ hh, hcr]
  · intro h
    cases hh : hasRow db.school (NewPgRow freshID x).id with
    | true =>
      simp [PostgresSchoolRepo.Create, withFault_none, execInsert_school, hh,
        Prod.mk.injEq] at h
    | false =>
      have hc : PostgresSchoolRepo.Create db freshID none none x =
          (db.setTable "school" (db.school ++ [NewPgRow freshID x]),
           .ok (NewPgRow freshID x).toDomain) := by
        simp only [PostgresSchoolRepo.Create, withFault_none, execInsert_school, hh,
          Bool.false_eq_true, if_false, execGetByID_school, setTable_school_school,
          findRow_append_self db.school _ hh]
      rw [hc] at h
      have hdb : db.setTable "school" (db.school ++ [NewPgRow freshID x]) = db' :=
        congrArg Prod.fst h
      have hcr : created = (NewPgRow freshID x).toDomain := by
        have h2 := congrArg Prod.snd h
        simp only [RepoResult.ok.injEq] at h2
        exact h2.symm
      subst hdb
      refine ⟨hcr, setTable_school_school db _, ?_⟩
      rw [schoolFindByID_none, setTable_school_school]
      have hid : created.id = (NewPgRow freshID x).id := by rw [hcr]; rfl
      rw [hid, findRow_append_self db.school _ hh, hcr]

/-- Witness for C5: creating `e0` (no assigned ID) in the empty state with
fresh id `u1` succeeds, and `FindByID` on the resulting state returns the
same entity. -/
theorem c5_witness :
    PostgresUserRepo.FindByID dbU1 none "u1" =
      .ok { id := "u1", payload := "p0" } :=
  ((c5_create_sequence_and_create_then_read db0 "u1" e0 dbU1
      { id := "u1", payload := "p0" }).1 rfl).2.2

/-- Claim C6: an update whose ID matches no row succeeds at the write step
(zero matched rows are not distinguished from one), and the absence is
surfaced only by the read-back as `NotFound`; a failure of the UPDATE
statement execution itself is wrapped as `UpdateFailed`.  Shown for the
user and school repositories. -/
theorem c6_update_zero_rows_surfaces_late_notfound :
    ∀ (db : DB) (freshID : String) (x : Entity) (fault : DriverError)
      (rF : Option DriverError),
      (hasRow db.user (NewPgRow freshID x).id = false →
        PostgresUserRepo.Update db freshID none none x =
          (db, .err (.classified .errNotExist .noRows))) ∧
      (PostgresUserRepo.Update db freshID (some fault) rF x).2 =
        .err (.classified .errUpdateFailed fault) ∧
      (hasRow db.school (NewPgRow freshID x).id = false →
        PostgresSchoolRepo.Update db freshID none none x =
          (db, .err (.classified .errNotExist .noRows))) ∧
      (PostgresSchoolRepo.Update db freshID (some fault) rF x).2 =
        .err (.classified .errUpdateFailed fault) := by
  intro db freshID x fault rF
  refine ⟨?_, rfl, ?_, rfl⟩
  · intro h
    simp only [PostgresUserRepo.Update, withFault_none, execUpdate_user,
      updateRows_of_not_has db.user _ h, setTable_user_self, execGetByID_user,
      findRow_none_of_not_has db.user _ h, classifyReadErr]
  · intro h
    simp only [PostgresSchoolRepo.Update, withFault_none, execUpdate_school,
      updateRows_of_not_has db.school _ h, setTable_school_self, execGetByID_school,
      findRow_none_of_not_has db.school _ h, classifyReadErr]

/-- Witness for C6: updating an entity in the empty state reports
`NotFound` from the read-back, not from the write step. -/
theorem c6_witness :
    PostgresUserRepo.Update db0 "u9" none none e0 =
      (db0, .err (.classified .errNotExist .noRows)) :=
  (c6_update_zero_rows_surfaces_late_notfound db0 "u9" e0 .other none).1 rfl

/-- Claim C7: `FindByID` for an id with no matching row fails with
`NotFound` (wrapping `sql.ErrNoRows`), never returning a zero-valued entity
with a nil error.  Shown for the user and review repositories. -/
theorem c7_find_by_id_missing_row_notfound :
    ∀ (db : DB) (id : String),
      (hasRow db.user id = false →
        PostgresUserRepo.FindByID db none id =
          .err (.classified .errNotExist .noRows)) ∧
      (hasRow db.review id = false →
        PostgresReviewRepo.FindByID db none id =
          .err (.classified .errNotExist .noRows)) := by
  intro db id
  constructor
  · intro h
    rw [userFindByID_none, findRow_none_of_not_has db.user id h]
  · intro h
    rw [reviewFindByID_none, findRow_none_of_not_has db.review id h]

/-- Witness for C7: `FindByID` on the empty state fails with `NotFound`. -/
theorem c7_witness :
    PostgresUserRepo.FindByID db0 none "nope" =
      .err (.classified .errNotExist .noRows) :=
  (c7_find_by_id_missing_row_notfound db0 "nope").1 rfl

/-- Claim C8: every entity Create whose INSERT fails with the
uniqueness-violation code returns `Duplicate`, and a duplicate
school-teacher membership insert returns `Duplicate`. -/
theorem c8_unique_violation_yields_duplicate :
    ∀ (db : DB) (freshID sid tid : String) (rF : Option DriverError) (x : Entity),
      (PostgresUserRepo.Create db freshID (some (.pg PgUniqueViolationCode)) rF x).2 =
        .err (.classified .errDuplicate (.pg PgUniqueViolationCode)) ∧
      (PostgresSchoolRepo.Create db freshID (some (.pg PgUniqueViolationCode)) rF x).2 =
        .err (.classified .errDuplicate (.pg PgUniqueViolationCode)) ∧
      (PostgresReviewRepo.Create db freshID (some (.pg PgUniqueViolationCode)) rF x).2 =
        .err (.classified .errDuplicate (.pg PgUniqueViolationCode)) ∧
      (PostgresCertificateRepo.Create db freshID (some (.pg PgUniqueViolationCode)) rF x).2 =
        .err (.classified .errDuplicate (.pg PgUniqueViolationCode)) ∧
      (PostgresSchoolRepo.AddSchoolTeacher db (some (.pg PgUniqueViolationCode)) sid tid).2 =
        .err (.classified .errDuplicate (.pg PgUniqueViolationCode)) ∧
      (hasPair db.school_teacher tid sid = true →
        PostgresSchoolRepo.AddSchoolTeacher db none sid tid =
          (db, .err (.classified .errDuplicate (.pg PgUniqueViolationCode)))) := by
  intro db freshID sid tid rF x
  refine ⟨rfl, rfl, rfl, rfl, rfl, ?_⟩
  intro h
  simp [PostgresSchoolRepo.AddSchoolTeacher, withFault_none, execInsertTeacher, h,
    classifyCreateErr]

/-- Witness for C8: inserting the membership `(t1, s1)` into a state that
already holds it yields `Duplicate` and leaves the state unchanged. -/
theorem c8_witness :
    PostgresSchoolRepo.AddSchoolTeacher dbST none "s1" "t1" =
      (dbST, .err (.classified .errDuplicate (.pg PgUniqueViolationCode))) :=
  (c8_unique_violation_yields_duplicate dbST "f1" "s1" "t1" none e0).2.2.2.2.2 rfl

/-- Claim C9: `Delete(id)` executes a single delete keyed by ID and returns
no error even when zero rows match (no existence check — deleting a missing
id is a no-op, never `NotFound`); any store-level failure of the statement
is wrapped as `DeleteFailed`.  Shown for the user and school repositories. -/
theorem c9_delete_no_existence_check_deletefailed :
    ∀ (db : DB) (id : String) (fault : DriverError),
      ((PostgresUserRepo.Delete db none id).2 = .ok () ∧
       (hasRow db.user id = false →
         PostgresUserRepo.Delete db none id = (db, .ok ())) ∧
       PostgresUserRepo.Delete db (some fault) id =
         (db, .err (.classified .errDeleteFailed fault))) ∧
      ((PostgresSchoolRepo.Delete db none id).2 = .ok () ∧
       (hasRow db.school id = false →
         PostgresSchoolRepo.Delete db none id = (db, .ok ())) ∧
       PostgresSchoolRepo.Delete db (some fault) id =
         (db, .err (.classified .errDeleteFailed fault))) := by
  intro db id fault
  refine ⟨⟨rfl, ?_, rfl⟩, ⟨rfl, ?_, rfl⟩⟩
  · intro h
    simp only [PostgresUserRepo.Delete, withFault_none, execDeleteByID_user,
      removeRows_of_not_has db.user id h, setTable_user_self]
  · intro h
    simp only [PostgresSchoolRepo.Delete, withFault_none, execDeleteByID_school,
      removeRows_of_not_has db.school id h, setTable_school_self]

/-- Witness for C9: deleting a non-existent id from the empty state
succeeds as a no-op. -/
theorem c9_witness :
    PostgresUserRepo.Delete db0 none "ghost" = (db0, .ok ()) :=
  (c9_delete_no_existence_check_deletefailed db0 "ghost" .other).1.2.1 rfl

/-- Claim C10: the Update write step never returns `Duplicate` or
`EnumValueError` — every driver failure during the UPDATE statement,
including a uniqueness or enumerated-value constraint violation, is wrapped
as `UpdateFailed`.  Shown for the user and school repositories. -/
theorem c10_update_write_step_always_updatefailed :
    ∀ (db : DB) (freshID : String) (x : Entity) (fault : DriverError)
      (rF : Option DriverError),
      (PostgresUserRepo.Update db freshID (some fault) rF x).2 =
        .err (.classified .errUpdateFailed fault) ∧
      (PostgresSchoolRepo.Update db freshID (some fault) rF x).2 =
        .err (.classified .errUpdateFailed fault) ∧
      ErrKind.errUpdateFailed ≠ ErrKind.errDuplicate ∧
      ErrKind.errUpdateFailed ≠ ErrKind.errEnumValueError :=
  fun _ _ _ _ _ => ⟨rfl, rfl, by decide, by decide⟩
